import Mathlib

/-! WebAssembly type definitions (`Source/WebAssembly/Types.h`)

A shallow embedding of the value, size, table, memory, global and object
types of the WAVM runtime, together with the small functions defined on
them in the header.

Conventions of the embedding:

* `uint8` and `uint64` are the bounded naturals `Fin 256` and `Fin (2^64)`;
  the header performs no arithmetic on them, only comparisons and casts.
* An `enum class E : uint8` is a wrapper around its `uint8` code, because a
  C++ enumeration with a fixed underlying type can hold every value of that
  type (the `default:` branches of the header's `switch`es rely on it). The
  enumerators are named constants.
* A function that can hit a failed `assert` or a `throw;` returns `Option`,
  with `none` standing for the failure. Assertions are taken as enabled.
-/

namespace WebAssembly

/-- The unsigned 8-bit integers. -/
abbrev uint8 : Type := Fin 256

/-- The unsigned 64-bit integers. -/
abbrev uint64 : Type := Fin 18446744073709551616

/-- The constant `UINT64_MAX` of `<stdint.h>`, that is `2^64 - 1`. -/
def UINT64_MAX : uint64 := ⟨18446744073709551615, by decide⟩

/-! ## ValueType and ReturnType -/

/-- The enumeration `enum class ValueType : uint8`. -/
structure ValueType where
  code : uint8
deriving DecidableEq, Repr

namespace ValueType

def invalid : ValueType := ⟨0⟩
def i32 : ValueType := ⟨1⟩
def i64 : ValueType := ⟨2⟩
def f32 : ValueType := ⟨3⟩
def f64 : ValueType := ⟨4⟩
def max : ValueType := ⟨4⟩
def num : ValueType := ⟨max.code + 1⟩

end ValueType

/-- The enumeration `enum class ReturnType : uint8`; its enumerators take their
codes from those of `ValueType`. -/
structure ReturnType where
  code : uint8
deriving DecidableEq, Repr

namespace ReturnType

def invalid : ReturnType := ⟨ValueType.invalid.code⟩
def i32 : ReturnType := ⟨ValueType.i32.code⟩
def i64 : ReturnType := ⟨ValueType.i64.code⟩
def f32 : ReturnType := ⟨ValueType.f32.code⟩
def f64 : ReturnType := ⟨ValueType.f64.code⟩
def unit : ReturnType := ⟨ValueType.max.code + 1⟩
def max : ReturnType := unit
def num : ReturnType := ⟨max.code + 1⟩

end ReturnType

/-! ## FunctionType -/

/-- The record `struct FunctionType`: a return type and a parameter vector. -/
structure FunctionType where
  ret : ReturnType
  parameters : List ValueType
deriving DecidableEq, Repr

/-- A value of type `const FunctionType*`. The address is the identity of the
pointed-to object; since the pointee is `const`, the pointer also fixes the
function type that dereferencing it yields. -/
structure FunctionTypePtr where
  address : Nat
  target : FunctionType
deriving DecidableEq, Repr

/-- The enumeration `enum class TableElementType : uint8`. -/
structure TableElementType where
  code : uint8
deriving DecidableEq, Repr

namespace TableElementType

def anyfunc : TableElementType := ⟨0x20⟩

end TableElementType

/-! ## SizeConstraints -/

/-- The record `struct SizeConstraints`. -/
structure SizeConstraints where
  min : uint64
  max : uint64
deriving DecidableEq, Repr

namespace SizeConstraints

/-- The friend `operator==` of `SizeConstraints`. -/
def operator_eq (left right : SizeConstraints) : Bool :=
  left.min == right.min && left.max == right.max

/-- The friend `operator!=` of `SizeConstraints`. -/
def operator_ne (left right : SizeConstraints) : Bool :=
  left.min != right.min || left.max != right.max

end SizeConstraints

/-- The friend `isSubset(super, sub)` of `SizeConstraints`. -/
def isSubset (super sub : SizeConstraints) : Bool :=
  decide (sub.min ≥ super.min) && decide (sub.max ≤ super.max)

/-! ## TableType, MemoryType and GlobalType -/

/-- The record `struct TableType`. -/
structure TableType where
  elementType : TableElementType
  size : SizeConstraints
deriving DecidableEq, Repr

namespace TableType

/-- The default constructor `TableType()`. -/
def ctor_default : TableType :=
  { elementType := TableElementType.anyfunc, size := ⟨0, UINT64_MAX⟩ }

/-- The constructor `TableType(inElementType, inSize)`. -/
def ctor (inElementType : TableElementType) (inSize : SizeConstraints) : TableType :=
  { elementType := inElementType, size := inSize }

/-- The friend `operator==` of `TableType`. -/
def operator_eq (left right : TableType) : Bool :=
  left.elementType == right.elementType && SizeConstraints.operator_eq left.size right.size

/-- The friend `operator!=` of `TableType`. -/
def operator_ne (left right : TableType) : Bool :=
  left.elementType != right.elementType || SizeConstraints.operator_ne left.size right.size

end TableType

/-- The record `struct MemoryType`. -/
structure MemoryType where
  size : SizeConstraints
deriving DecidableEq, Repr

namespace MemoryType

/-- The default constructor `MemoryType()`. -/
def ctor_default : MemoryType :=
  { size := ⟨0, UINT64_MAX⟩ }

/-- The constructor `MemoryType(inSize)`. -/
def ctor (inSize : SizeConstraints) : MemoryType :=
  { size := inSize }

/-- The friend `operator==` of `MemoryType`. -/
def operator_eq (left right : MemoryType) : Bool :=
  SizeConstraints.operator_eq left.size right.size

/-- The friend `operator!=` of `MemoryType`. -/
def operator_ne (left right : MemoryType) : Bool :=
  SizeConstraints.operator_ne left.size right.size

end MemoryType

/-- The record `struct GlobalType`. -/
structure GlobalType where
  valueType : ValueType
  isMutable : Bool
deriving DecidableEq, Repr

namespace GlobalType

/-- The friend `operator==` of `GlobalType`. -/
def operator_eq (left right : GlobalType) : Bool :=
  left.valueType == right.valueType && left.isMutable == right.isMutable

/-- The friend `operator!=` of `GlobalType`. -/
def operator_ne (left right : GlobalType) : Bool :=
  left.valueType != right.valueType || left.isMutable != right.isMutable

end GlobalType

/-! ## ObjectKind and ObjectType -/

/-- The enumeration `enum class ObjectKind : uint8`. -/
structure ObjectKind where
  code : uint8
deriving DecidableEq, Repr

namespace ObjectKind

def function : ObjectKind := ⟨0⟩
def table : ObjectKind := ⟨1⟩
def memory : ObjectKind := ⟨2⟩
def global : ObjectKind := ⟨3⟩
def module : ObjectKind := ⟨4⟩
def max : ObjectKind := ⟨4⟩
def invalid : ObjectKind := ⟨0xff⟩

end ObjectKind

/-- The anonymous union inside `struct ObjectType`, as the member that was
written last together with its value. -/
inductive ObjectUnion where
  | function (function : FunctionTypePtr)
  | table (table : TableType)
  | memory (memory : MemoryType)
  | global (global : GlobalType)
deriving DecidableEq, Repr

/-- The record `struct ObjectType`: a kind tag beside the union. The tag is an
ordinary field, so nothing in the type ties it to the union's active member;
`active` is `none` while no member has been written. -/
structure ObjectType where
  kind : ObjectKind
  active : Option ObjectUnion
deriving DecidableEq, Repr

namespace ObjectType

/-- The default constructor `ObjectType()`: it sets the kind and leaves the
union unwritten. -/
def ctor_default : ObjectType :=
  { kind := ObjectKind.invalid, active := none }

/-- The constructor `ObjectType(const FunctionType* inFunction)`. -/
def ctor_function (inFunction : FunctionTypePtr) : ObjectType :=
  { kind := ObjectKind.function, active := some (ObjectUnion.function inFunction) }

/-- The constructor `ObjectType(TableType inTable)`. -/
def ctor_table (inTable : TableType) : ObjectType :=
  { kind := ObjectKind.table, active := some (ObjectUnion.table inTable) }

/-- The constructor `ObjectType(MemoryType inMemory)`. -/
def ctor_memory (inMemory : MemoryType) : ObjectType :=
  { kind := ObjectKind.memory, active := some (ObjectUnion.memory inMemory) }

/-- The constructor `ObjectType(GlobalType inGlobal)`. -/
def ctor_global (inGlobal : GlobalType) : ObjectType :=
  { kind := ObjectKind.global, active := some (ObjectUnion.global inGlobal) }

/-- Reading the union member `function`; defined only while it is the active
member. -/
def function (objectType : ObjectType) : Option FunctionTypePtr :=
  match objectType.active with
  | some (ObjectUnion.function f) => some f
  | _ => none

/-- Reading the union member `table`; defined only while it is the active
member. -/
def table (objectType : ObjectType) : Option TableType :=
  match objectType.active with
  | some (ObjectUnion.table t) => some t
  | _ => none

/-- Reading the union member `memory`; defined only while it is the active
member. -/
def memory (objectType : ObjectType) : Option MemoryType :=
  match objectType.active with
  | some (ObjectUnion.memory m) => some m
  | _ => none

/-- Reading the union member `global`; defined only while it is the active
member. -/
def global (objectType : ObjectType) : Option GlobalType :=
  match objectType.active with
  | some (ObjectUnion.global g) => some g
  | _ => none

end ObjectType

/-! ## Functions on value and return types -/

/-- The function `getArity(ReturnType)`; the result is a `size_t`. -/
def getArity (returnType : ReturnType) : Nat :=
  if returnType == ReturnType.unit then 0 else 1

/-- The function `asValueType(ReturnType)`: the cast keeps the code; `none`
when the assertion `type != ReturnType::unit` fails. -/
def asValueType (type : ReturnType) : Option ValueType :=
  if type != ReturnType.unit then some ⟨type.code⟩ else none

/-- The function `asReturnType(ValueType)`: the cast keeps the code; `none`
when the assertion `type != ValueType::invalid` fails. -/
def asReturnType (type : ValueType) : Option ReturnType :=
  if type != ValueType.invalid then some ⟨type.code⟩ else none

/-- The function `getTypeBitWidth(ValueType)`; `none` when the `default:`
branch executes `throw;`. -/
def getTypeBitWidth (type : ValueType) : Option uint8 :=
  if type = ValueType.i32 then some 32
  else if type = ValueType.i64 then some 64
  else if type = ValueType.f32 then some 32
  else if type = ValueType.f64 then some 64
  else none

/-! ## Type names -/

/-- The function `getTypeName(ValueType)`. -/
def ValueType.getTypeName (type : ValueType) : String :=
  if type = ValueType.invalid then "invalid"
  else if type = ValueType.i32 then "i32"
  else if type = ValueType.i64 then "i64"
  else if type = ValueType.f32 then "f32"
  else if type = ValueType.f64 then "f64"
  else "unknown"

/-- The function `getTypeName(ReturnType)`. -/
def ReturnType.getTypeName (type : ReturnType) : String :=
  if type = ReturnType.unit then "()"
  else if type = ReturnType.i32 then "i32"
  else if type = ReturnType.i64 then "i64"
  else if type = ReturnType.f32 then "f32"
  else if type = ReturnType.f64 then "f64"
  else "unknown"

/-- The `for` loop of `getTypeName(const std::vector<ValueType>&)`. The list
holds the elements of `typeTuple` from position `parameterIndex` on, and
`result` is the string built so far. -/
def getTypeName.loop : List ValueType → Nat → String → String
  | [], _, result => result
  | type :: rest, parameterIndex, result =>
    let result := if parameterIndex != 0 then result.push ',' else result
    getTypeName.loop rest (parameterIndex + 1) (result ++ type.getTypeName)

/-- The function `getTypeName(const std::vector<ValueType>&)`. -/
def getTypeName (typeTuple : List ValueType) : String :=
  getTypeName.loop typeTuple 0 "(" ++ ")"

/-- The function `getTypeName(const FunctionType*)`, on the pointed-to
function type. -/
def FunctionType.getTypeName (functionType : FunctionType) : String :=
  WebAssembly.getTypeName functionType.parameters ++ "->" ++ functionType.ret.getTypeName

/-- The function `getTypeName(const FunctionType*)`. -/
def FunctionTypePtr.getTypeName (functionType : FunctionTypePtr) : String :=
  functionType.target.getTypeName

/-- The function `getTypeName(const GlobalType&)`. -/
def GlobalType.getTypeName (globalType : GlobalType) : String :=
  if globalType.isMutable then "global" ++ globalType.valueType.getTypeName
  else "immutable" ++ globalType.valueType.getTypeName

/-- The function `getTypeName(const ObjectType&)`. The result is `none` when
the `default:` branch executes `throw;`, and when the union member that the
branch reads is not the active one. -/
def ObjectType.getTypeName (objectType : ObjectType) : Option String :=
  if objectType.kind = ObjectKind.function then
    objectType.function.map (fun function => "func " ++ function.getTypeName)
  else if objectType.kind = ObjectKind.table then some "table"
  else if objectType.kind = ObjectKind.memory then some "memory"
  else if objectType.kind = ObjectKind.global then
    objectType.global.map (fun global => global.getTypeName)
  else none

/-- The rendering of a function type in the words of the specification: an
opening parenthesis, the names of the parameters separated by single commas, a
closing parenthesis, the arrow `->`, and the name of the return type. -/
def FunctionType.getTypeName_spec (parameters : List ValueType) (ret : ReturnType) : String :=
  "(" ++ ",".intercalate (parameters.map ValueType.getTypeName) ++ ")->" ++ ret.getTypeName

/-! ## The table of interned function types -/

/-- Modelled from the spec: `FunctionType::get` is declared in `Types.h` and
defined elsewhere. The specification describes a process-wide interning table
whose entries are never evicted. The table is the list of the function types
requested so far, in the order of their first request. -/
structure Interner where
  table : List FunctionType
deriving DecidableEq, Repr

/-- Modelled from the spec: the interning table before any request. -/
def Interner.empty : Interner :=
  { table := [] }

/-- Modelled from the spec: `FunctionType::get(ret, parameters)`, declared in
`Types.h` and defined elsewhere. The specification asks for an identity equal to
that of any earlier request with structurally equal arguments and distinct from
every other. A function type already in the table is returned at its position;
a new one is added at the end. The address of the result is the position. -/
def FunctionType.get (interner : Interner) (ret : ReturnType)
    (parameters : List ValueType) : FunctionTypePtr × Interner :=
  let functionType : FunctionType := { ret := ret, parameters := parameters }
  if functionType ∈ interner.table then
    ({ address := interner.table.indexOf functionType, target := functionType }, interner)
  else
    ({ address := interner.table.length, target := functionType },
      { table := interner.table ++ [functionType] })

/-- Modelled from the spec: `FunctionType::get(ret)`, the overload without a
parameter list, declared in `Types.h` and defined elsewhere. The specification
speaks of the empty-parameter signature. -/
def FunctionType.get_ret (interner : Interner) (ret : ReturnType) :
    FunctionTypePtr × Interner :=
  FunctionType.get interner ret []

/-- Modelled from the spec: the call `FunctionType::get()`, in which the
declaration's default argument supplies `ReturnType::unit`. -/
def FunctionType.get_default (interner : Interner) : FunctionTypePtr × Interner :=
  FunctionType.get_ret interner ReturnType.unit

/-- A sequence of requests to `FunctionType::get`, each given by its return type
and parameter list; the result is the table afterwards. -/
def Interner.requests (interner : Interner) :
    List (ReturnType × List ValueType) → Interner
  | [] => interner
  | request :: rest =>
    Interner.requests (FunctionType.get interner request.1 request.2).2 rest

/-! ## The embedder example (`Examples/embedder/cpp/embedder-example.cpp`) -/

/-- The least value of the signed 32-bit type `I32`. -/
def I32_MIN : Int := -2147483648

/-- The greatest value of the signed 32-bit type `I32`. -/
def I32_MAX : Int := 2147483647

/-- The intrinsic function `hello`. The registration macro that introduces it is
defined elsewhere; it is read as declaring a function with result type `I32` and
the parameter `I32 argument`. The text printed by `printf` is appended to
`stdout`. The signed addition has no defined result beyond `I32_MAX`, which is
`none`. -/
def hello (stdout : String) (argument : Int) : Option (String × Int) :=
  let stdout := stdout ++ "Hello world! (argument = " ++ toString argument ++ ")\n"
  if argument + 1 ≤ I32_MAX then some (stdout, argument + 1) else none

/-! ## The declared enumerators -/

/-- The enumerators that `enum class ValueType` declares, in source order. -/
def ValueType.declared : List ValueType :=
  [ValueType.invalid, ValueType.i32, ValueType.i64, ValueType.f32, ValueType.f64,
    ValueType.max, ValueType.num]

/-- The enumerators that `enum class ReturnType` declares, in source order. -/
def ReturnType.declared : List ReturnType :=
  [ReturnType.invalid, ReturnType.i32, ReturnType.i64, ReturnType.f32, ReturnType.f64,
    ReturnType.unit, ReturnType.max, ReturnType.num]

/-! ## Link compatibility of tables and memories -/

/-- Modelled from the spec: the check that an export may satisfy a table import
is not defined in `Types.h`. The specification gives it as: element kind
equal and `isSubset(importDeclared.size, exportActual.size)`. -/
def isLinkCompatibleTable (importDeclared exportActual : TableType) : Bool :=
  importDeclared.elementType == exportActual.elementType
    && isSubset importDeclared.size exportActual.size

/-- Modelled from the spec: the check that an export may satisfy a memory import
is not defined in `Types.h`. The specification gives it as the subset rule
of tables without the element kind:
`isSubset(importDeclared.size, exportActual.size)`. -/
def isLinkCompatibleMemory (importDeclared exportActual : MemoryType) : Bool :=
  isSubset importDeclared.size exportActual.size

/-! ## Theorems -/

/-- Unfolding `isSubset`: the Boolean result in terms of the bounds' values. -/
theorem isSubset_eq_true_iff_le (super sub : SizeConstraints) :
    isSubset super sub = true ↔
      (super.min.val ≤ sub.min.val ∧ sub.max.val ≤ super.max.val) := by
  unfold isSubset
  rw [Bool.and_eq_true, decide_eq_true_iff, decide_eq_true_iff]
  exact Iff.rfl

/-- C1: for every pair of size constraints over unsigned 64-bit bounds (the
bound `2^64 - 1` included), `isSubset super sub` is true exactly when
`sub.min ≥ super.min` and `sub.max ≤ super.max` as natural numbers. -/
theorem isSubset_iff (super sub : SizeConstraints) :
    isSubset super sub = true ↔
      (sub.min.val ≥ super.min.val ∧ sub.max.val ≤ super.max.val) :=
  isSubset_eq_true_iff_le super sub

/-- C2: when `sub` lies inside `super` and the two differ in at least one bound,
`isSubset super sub` is true and `isSubset sub super` is false. -/
theorem isSubset_strict (super sub : SizeConstraints)
    (hmin : super.min.val ≤ sub.min.val) (hmax : sub.max.val ≤ super.max.val)
    (hne : super.min ≠ sub.min ∨ super.max ≠ sub.max) :
    isSubset super sub = true ∧ isSubset sub super = false := by
  refine ⟨(isSubset_eq_true_iff_le super sub).mpr ⟨hmin, hmax⟩, ?_⟩
  cases hrev : isSubset sub super with
  | false => rfl
  | true =>
    exfalso
    obtain ⟨h1, h2⟩ := (isSubset_eq_true_iff_le sub super).mp hrev
    rcases hne with h | h
    · exact h (Fin.ext (Nat.le_antisymm hmin h1))
    · exact h (Fin.ext (Nat.le_antisymm h2 hmax))

/-- C2, at the ranges of the specification: `isSubset({0,10},{2,8})` is true and
`isSubset({2,8},{0,10})` is false. -/
theorem isSubset_strict_witness :
    isSubset ⟨0, 10⟩ ⟨2, 8⟩ = true ∧ isSubset ⟨2, 8⟩ ⟨0, 10⟩ = false :=
  isSubset_strict ⟨0, 10⟩ ⟨2, 8⟩ (by decide) (by decide) (by decide)

/-- C3, as stated, fails: under the specification's compatibility rule an export
of size `{0,100}` does not satisfy an import declared `{0,10}`, for memories and
for tables alike. -/
theorem linkCompatible_claimed_direction_fails :
    ¬ (isLinkCompatibleMemory ⟨⟨0, 10⟩⟩ ⟨⟨0, 100⟩⟩ = true
        ∧ isLinkCompatibleMemory ⟨⟨0, 100⟩⟩ ⟨⟨0, 10⟩⟩ = false)
    ∧ ¬ (isLinkCompatibleTable ⟨TableElementType.anyfunc, ⟨0, 10⟩⟩
            ⟨TableElementType.anyfunc, ⟨0, 100⟩⟩ = true
        ∧ isLinkCompatibleTable ⟨TableElementType.anyfunc, ⟨0, 100⟩⟩
            ⟨TableElementType.anyfunc, ⟨0, 10⟩⟩ = false) := by
  decide

/-- C3, amended: under the specification's compatibility rule
`isSubset(importDeclared.size, exportActual.size)`, an export of size `{0,10}`
satisfies an import declared `{0,100}`, and an export of size `{0,100}` does not
satisfy an import declared `{0,10}`; the same for memories and for tables. -/
theorem linkCompatible_direction :
    isLinkCompatibleMemory ⟨⟨0, 100⟩⟩ ⟨⟨0, 10⟩⟩ = true
    ∧ isLinkCompatibleMemory ⟨⟨0, 10⟩⟩ ⟨⟨0, 100⟩⟩ = false
    ∧ isLinkCompatibleTable ⟨TableElementType.anyfunc, ⟨0, 100⟩⟩
        ⟨TableElementType.anyfunc, ⟨0, 10⟩⟩ = true
    ∧ isLinkCompatibleTable ⟨TableElementType.anyfunc, ⟨0, 10⟩⟩
        ⟨TableElementType.anyfunc, ⟨0, 100⟩⟩ = false := by
  decide

/-- C4: `isSubset` is reflexive and transitive, and `isSubset A B` together with
`isSubset B A` holds exactly when `A == B` under the component-wise
`operator==`. -/
theorem isSubset_partial_order :
    (∀ X : SizeConstraints, isSubset X X = true)
    ∧ (∀ A B C : SizeConstraints,
        isSubset A B = true → isSubset B C = true → isSubset A C = true)
    ∧ (∀ A B : SizeConstraints,
        (isSubset A B = true ∧ isSubset B A = true)
          ↔ SizeConstraints.operator_eq A B = true) := by
  refine ⟨?_, ?_, ?_⟩
  · intro X
    exact (isSubset_eq_true_iff_le X X).mpr ⟨Nat.le_refl _, Nat.le_refl _⟩
  · intro A B C hAB hBC
    obtain ⟨h1, h2⟩ := (isSubset_eq_true_iff_le A B).mp hAB
    obtain ⟨h3, h4⟩ := (isSubset_eq_true_iff_le B C).mp hBC
    exact (isSubset_eq_true_iff_le A C).mpr ⟨Nat.le_trans h1 h3, Nat.le_trans h4 h2⟩
  · intro A B
    unfold SizeConstraints.operator_eq
    rw [Bool.and_eq_true, beq_iff_eq, beq_iff_eq]
    constructor
    · rintro ⟨hAB, hBA⟩
      obtain ⟨h1, h2⟩ := (isSubset_eq_true_iff_le A B).mp hAB
      obtain ⟨h3, h4⟩ := (isSubset_eq_true_iff_le B A).mp hBA
      exact ⟨Fin.ext (Nat.le_antisymm h1 h3), Fin.ext (Nat.le_antisymm h4 h2)⟩
    · rintro ⟨hmin, hmax⟩
      have e1 : A.min.val = B.min.val := congrArg Fin.val hmin
      have e2 : A.max.val = B.max.val := congrArg Fin.val hmax
      exact ⟨(isSubset_eq_true_iff_le A B).mpr ⟨Nat.le_of_eq e1, Nat.le_of_eq e2.symm⟩,
        (isSubset_eq_true_iff_le B A).mpr ⟨Nat.le_of_eq e1.symm, Nat.le_of_eq e2⟩⟩

/-- C4, transitivity at concrete ranges: from `{0,10} ⊇ {2,8}` and
`{2,8} ⊇ {3,7}` it follows that `{0,10} ⊇ {3,7}`. -/
theorem isSubset_partial_order_witness :
    isSubset ⟨0, 10⟩ ⟨2, 8⟩ = true ∧ isSubset ⟨2, 8⟩ ⟨3, 7⟩ = true
      ∧ isSubset ⟨0, 10⟩ ⟨3, 7⟩ = true :=
  ⟨by decide, by decide,
    isSubset_partial_order.2.1 ⟨0, 10⟩ ⟨2, 8⟩ ⟨3, 7⟩ (by decide) (by decide)⟩

/-- C5: `asValueType` fails exactly on `ReturnType::unit` and `asReturnType`
fails exactly on `ValueType::invalid`; on every other input each returns the
value of the other enumeration with the same numeric code. -/
theorem asValueType_asReturnType_spec :
    (∀ r : ReturnType, asValueType r = none ↔ r = ReturnType.unit)
    ∧ (∀ v : ValueType, asReturnType v = none ↔ v = ValueType.invalid)
    ∧ (∀ r : ReturnType, r ≠ ReturnType.unit →
        ∃ v : ValueType, asValueType r = some v ∧ v.code = r.code)
    ∧ (∀ v : ValueType, v ≠ ValueType.invalid →
        ∃ r : ReturnType, asReturnType v = some r ∧ r.code = v.code)
    ∧ (asValueType ReturnType.invalid = some ValueType.invalid
        ∧ asValueType ReturnType.i32 = some ValueType.i32
        ∧ asValueType ReturnType.i64 = some ValueType.i64
        ∧ asValueType ReturnType.f32 = some ValueType.f32
        ∧ asValueType ReturnType.f64 = some ValueType.f64)
    ∧ (asReturnType ValueType.i32 = some ReturnType.i32
        ∧ asReturnType ValueType.i64 = some ReturnType.i64
        ∧ asReturnType ValueType.f32 = some ReturnType.f32
        ∧ asReturnType ValueType.f64 = some ReturnType.f64) := by
  refine ⟨?_, ?_, ?_, ?_, by decide, by decide⟩
  · intro r
    unfold asValueType
    by_cases h : r = ReturnType.unit
    · simp [h]
    · simp [h]
  · intro v
    unfold asReturnType
    by_cases h : v = ValueType.invalid
    · simp [h]
    · simp [h]
  · intro r h
    exact ⟨⟨r.code⟩, by simp [asValueType, h], rfl⟩
  · intro v h
    exact ⟨⟨v.code⟩, by simp [asReturnType, h], rfl⟩

/-- C5, at concrete inputs: `asValueType` succeeds on `ReturnType::f64` and
`asReturnType` on `ValueType::i32`, each keeping the numeric code. -/
theorem asValueType_asReturnType_spec_witness :
    (∃ v : ValueType, asValueType ReturnType.f64 = some v ∧ v.code = 4)
    ∧ (∃ r : ReturnType, asReturnType ValueType.i32 = some r ∧ r.code = 1) :=
  ⟨asValueType_asReturnType_spec.2.2.1 ReturnType.f64 (by decide),
    asValueType_asReturnType_spec.2.2.2.1 ValueType.i32 (by decide)⟩

/-- C6: `getArity` is 0 on `ReturnType::unit`, 1 on the return types `i32`,
`i64`, `f32` and `f64`, and 0 or 1 on every return type. -/
theorem getArity_spec :
    getArity ReturnType.unit = 0
    ∧ getArity ReturnType.i32 = 1 ∧ getArity ReturnType.i64 = 1
    ∧ getArity ReturnType.f32 = 1 ∧ getArity ReturnType.f64 = 1
    ∧ (∀ r : ReturnType, getArity r = 0 ∨ getArity r = 1) := by
  refine ⟨by decide, by decide, by decide, by decide, by decide, ?_⟩
  intro r
  unfold getArity
  split
  · exact Or.inl rfl
  · exact Or.inr rfl

/-- C7: `getTypeBitWidth` is 32 on `i32` and `f32` and 64 on `i64` and `f64`, so
each of the four value types has width 32 or 64; on `ValueType::invalid` it
fails. -/
theorem getTypeBitWidth_spec :
    getTypeBitWidth ValueType.i32 = some 32
    ∧ getTypeBitWidth ValueType.f32 = some 32
    ∧ getTypeBitWidth ValueType.i64 = some 64
    ∧ getTypeBitWidth ValueType.f64 = some 64
    ∧ (∀ v ∈ [ValueType.i32, ValueType.i64, ValueType.f32, ValueType.f64],
        getTypeBitWidth v = some 32 ∨ getTypeBitWidth v = some 64)
    ∧ getTypeBitWidth ValueType.invalid = none := by
  decide

/-- C8: two global types are `==` exactly when their value types are equal and
their mutability flags are equal; a mutable global type is never `==` to an
immutable one of the same value type. -/
theorem GlobalType_operator_eq_iff :
    (∀ a b : GlobalType,
        GlobalType.operator_eq a b = true
          ↔ (a.valueType = b.valueType ∧ a.isMutable = b.isMutable))
    ∧ (∀ v : ValueType,
        GlobalType.operator_eq ⟨v, true⟩ ⟨v, false⟩ = false
          ∧ GlobalType.operator_eq ⟨v, false⟩ ⟨v, true⟩ = false) := by
  constructor
  · intro a b
    unfold GlobalType.operator_eq
    rw [Bool.and_eq_true, beq_iff_eq, beq_iff_eq]
  · intro v
    unfold GlobalType.operator_eq
    constructor <;> (rw [Bool.and_eq_false_iff]; right; rfl)

/-- C9: each of the four payload constructors of `ObjectType` sets the kind that
names its payload and stores the payload in the union member of that name; the
default constructor sets the kind `invalid`, which differs from `function`,
`table`, `memory`, `global` and `module`. -/
theorem ObjectType_ctor_spec :
    (∀ f : FunctionTypePtr,
        (ObjectType.ctor_function f).kind = ObjectKind.function
          ∧ (ObjectType.ctor_function f).function = some f)
    ∧ (∀ t : TableType,
        (ObjectType.ctor_table t).kind = ObjectKind.table
          ∧ (ObjectType.ctor_table t).table = some t)
    ∧ (∀ m : MemoryType,
        (ObjectType.ctor_memory m).kind = ObjectKind.memory
          ∧ (ObjectType.ctor_memory m).memory = some m)
    ∧ (∀ g : GlobalType,
        (ObjectType.ctor_global g).kind = ObjectKind.global
          ∧ (ObjectType.ctor_global g).global = some g)
    ∧ ObjectType.ctor_default.kind = ObjectKind.invalid
    ∧ ObjectKind.invalid ∉
        [ObjectKind.function, ObjectKind.table, ObjectKind.memory,
          ObjectKind.global, ObjectKind.module] := by
  refine ⟨fun f => ⟨rfl, rfl⟩, fun t => ⟨rfl, rfl⟩, fun m => ⟨rfl, rfl⟩,
    fun g => ⟨rfl, rfl⟩, rfl, by decide⟩

/-- C10: a default-constructed `TableType` has element type `anyfunc` and size
`{0, 2^64 - 1}`; a default-constructed `MemoryType` has size `{0, 2^64 - 1}`,
and `2^64 - 1` is the greatest unsigned 64-bit value. -/
theorem default_TableType_MemoryType :
    TableType.ctor_default.elementType = TableElementType.anyfunc
    ∧ TableType.ctor_default.size.min.val = 0
    ∧ TableType.ctor_default.size.max.val = 2 ^ 64 - 1
    ∧ MemoryType.ctor_default.size.min.val = 0
    ∧ MemoryType.ctor_default.size.max.val = 2 ^ 64 - 1
    ∧ (∀ x : uint64, x.val ≤ MemoryType.ctor_default.size.max.val
        ∧ x.val ≤ TableType.ctor_default.size.max.val) := by
  refine ⟨rfl, rfl, by decide, rfl, by decide, ?_⟩
  intro x
  have hx : x.val < 18446744073709551616 := x.isLt
  have h1 : MemoryType.ctor_default.size.max.val = 18446744073709551615 := rfl
  have h2 : TableType.ctor_default.size.max.val = 18446744073709551615 := rfl
  rw [h1, h2]
  omega

/-- The `operator!=` of `SizeConstraints` is the negation of its `operator==`. -/
theorem SizeConstraints.operator_ne_eq_not (a b : SizeConstraints) :
    SizeConstraints.operator_ne a b = !SizeConstraints.operator_eq a b := by
  unfold SizeConstraints.operator_ne SizeConstraints.operator_eq
  rw [Bool.not_and]
  rfl

/-- C15: for `SizeConstraints`, `TableType`, `MemoryType` and `GlobalType`,
`operator!=` returns the negation of `operator==` on every pair of values. -/
theorem operator_ne_eq_not_operator_eq :
    (∀ a b : SizeConstraints,
        SizeConstraints.operator_ne a b = !SizeConstraints.operator_eq a b)
    ∧ (∀ a b : TableType, TableType.operator_ne a b = !TableType.operator_eq a b)
    ∧ (∀ a b : MemoryType, MemoryType.operator_ne a b = !MemoryType.operator_eq a b)
    ∧ (∀ a b : GlobalType, GlobalType.operator_ne a b = !GlobalType.operator_eq a b) := by
  refine ⟨SizeConstraints.operator_ne_eq_not, ?_, ?_, ?_⟩
  · intro a b
    unfold TableType.operator_ne TableType.operator_eq
    rw [Bool.not_and, SizeConstraints.operator_ne_eq_not]
    rfl
  · intro a b
    unfold MemoryType.operator_ne MemoryType.operator_eq
    exact SizeConstraints.operator_ne_eq_not a.size b.size
  · intro a b
    unfold GlobalType.operator_ne GlobalType.operator_eq
    rw [Bool.not_and]
    rfl

/-- C16: the size of a default-constructed `TableType` or `MemoryType` contains
every `SizeConstraints` under `isSubset`, and is contained only in
`{0, 2^64 - 1}` itself. -/
theorem default_size_greatest :
    (∀ X : SizeConstraints,
        isSubset TableType.ctor_default.size X = true
          ∧ isSubset MemoryType.ctor_default.size X = true)
    ∧ (∀ X : SizeConstraints,
        isSubset X TableType.ctor_default.size = true → X = ⟨0, UINT64_MAX⟩)
    ∧ (∀ X : SizeConstraints,
        isSubset X MemoryType.ctor_default.size = true → X = ⟨0, UINT64_MAX⟩) := by
  have hmin : (0 : uint64).val = 0 := rfl
  have hmax : UINT64_MAX.val = 18446744073709551615 := rfl
  have key : ∀ X : SizeConstraints,
      isSubset X ⟨0, UINT64_MAX⟩ = true → X = ⟨0, UINT64_MAX⟩ := by
    intro X h
    obtain ⟨h1, h2⟩ := (isSubset_eq_true_iff_le X ⟨0, UINT64_MAX⟩).mp h
    have h3 : X.max.val < 18446744073709551616 := X.max.isLt
    have e1 : X.min = 0 := Fin.ext (by
      show X.min.val = (0 : uint64).val
      have h1' : X.min.val ≤ (0 : uint64).val := h1
      omega)
    have e2 : X.max = UINT64_MAX := Fin.ext (by
      have h2' : UINT64_MAX.val ≤ X.max.val := h2
      omega)
    cases X
    simp only [SizeConstraints.mk.injEq]
    exact ⟨e1, e2⟩
  refine ⟨?_, key, key⟩
  intro X
  have h3 : X.max.val < 18446744073709551616 := X.max.isLt
  have hsub : isSubset ⟨0, UINT64_MAX⟩ X = true :=
    (isSubset_eq_true_iff_le ⟨0, UINT64_MAX⟩ X).mpr ⟨by
      show (0 : uint64).val ≤ X.min.val
      omega, by
      show X.max.val ≤ UINT64_MAX.val
      omega⟩
  exact ⟨hsub, hsub⟩

/-- C16, at the default size itself: `{0, 2^64 - 1}` is contained in the default
table size, and it is the range the theorem names. -/
theorem default_size_greatest_witness :
    isSubset ⟨0, UINT64_MAX⟩ TableType.ctor_default.size = true
      ∧ (⟨0, UINT64_MAX⟩ : SizeConstraints) = ⟨0, UINT64_MAX⟩ :=
  ⟨by decide, default_size_greatest.2.1 ⟨0, UINT64_MAX⟩ (by decide)⟩

/-- C17, as stated, fails: `ValueType::num` is not `invalid`, `asReturnType`
casts it to `ReturnType::unit`, and `asValueType` then fails. -/
theorem asValueType_asReturnType_num_fails :
    ValueType.num ≠ ValueType.invalid
    ∧ asReturnType ValueType.num = some ReturnType.unit
    ∧ (asReturnType ValueType.num).bind asValueType = none := by
  decide

/-- C17, amended: for every `ValueType` other than `invalid` and `num`,
`asValueType` after `asReturnType` succeeds and gives the value back, on `i32`,
`i64`, `f32` and `f64` in particular; for every `ReturnType` other than `unit`
and `invalid`, `asReturnType` after `asValueType` succeeds and gives the value
back. -/
theorem asValueType_asReturnType_inverse :
    (∀ v : ValueType, v ≠ ValueType.invalid → v ≠ ValueType.num →
        (asReturnType v).bind asValueType = some v)
    ∧ (∀ v ∈ [ValueType.i32, ValueType.i64, ValueType.f32, ValueType.f64],
        (asReturnType v).bind asValueType = some v)
    ∧ (∀ r : ReturnType, r ≠ ReturnType.unit → r ≠ ReturnType.invalid →
        (asValueType r).bind asReturnType = some r) := by
  refine ⟨?_, by decide, ?_⟩
  · intro v h1 h2
    have h3 : (⟨v.code⟩ : ReturnType) ≠ ReturnType.unit := by
      intro h
      apply h2
      cases v
      exact congrArg ValueType.mk (congrArg ReturnType.code h)
    simp [asReturnType, asValueType, h1, h3]
  · intro r h1 h2
    have h3 : (⟨r.code⟩ : ValueType) ≠ ValueType.invalid := by
      intro h
      apply h2
      cases r
      exact congrArg ReturnType.mk (congrArg ValueType.code h)
    simp [asReturnType, asValueType, h1, h3]

/-- C17, amended, at concrete inputs: the round trips on `ValueType::f32` and on
`ReturnType::i64`. -/
theorem asValueType_asReturnType_inverse_witness :
    (asReturnType ValueType.f32).bind asValueType = some ValueType.f32
    ∧ (asValueType ReturnType.i64).bind asReturnType = some ReturnType.i64 :=
  ⟨asValueType_asReturnType_inverse.1 ValueType.f32 (by decide) (by decide),
    asValueType_asReturnType_inverse.2.2 ReturnType.i64 (by decide) (by decide)⟩

/-- Pushing the comma character is appending the one-character string. -/
theorem push_comma_eq_append (acc : String) : acc.push ',' = acc ++ "," :=
  String.ext rfl

/-- The accumulator of `String.intercalate.go` can be split: a prefix of it
stays a prefix of the result. -/
theorem intercalate_go_append (a s : String) (names : List String) (b : String) :
    String.intercalate.go (a ++ b) s names = a ++ String.intercalate.go b s names := by
  induction names generalizing b with
  | nil => rfl
  | cons x xs ih =>
    show String.intercalate.go (a ++ b ++ s ++ x) s xs
      = a ++ String.intercalate.go (b ++ s ++ x) s xs
    rw [String.append_assoc a b s, String.append_assoc a (b ++ s) x]
    exact ih (b ++ s ++ x)

/-- From a nonzero index on, the loop of `getTypeName` appends a comma and a
name for every remaining element. -/
theorem getTypeName_loop_eq_go (typeTuple : List ValueType) (parameterIndex : Nat)
    (result : String) (hidx : parameterIndex ≠ 0) :
    getTypeName.loop typeTuple parameterIndex result
      = String.intercalate.go result "," (typeTuple.map ValueType.getTypeName) := by
  induction typeTuple generalizing parameterIndex result with
  | nil => rfl
  | cons type rest ih =>
    have hb : (parameterIndex != 0) = true := by
      rw [bne_iff_ne]
      exact hidx
    show getTypeName.loop rest (parameterIndex + 1)
        ((if (parameterIndex != 0) = true then result.push ',' else result)
          ++ type.getTypeName)
      = String.intercalate.go (result ++ "," ++ type.getTypeName) ","
          (rest.map ValueType.getTypeName)
    rw [if_pos hb, push_comma_eq_append]
    exact ih (parameterIndex + 1) _ (Nat.succ_ne_zero parameterIndex)

/-- The tuple rendering is the comma-separated list of names in parentheses. -/
theorem getTypeName_tuple_eq (typeTuple : List ValueType) :
    getTypeName typeTuple
      = "(" ++ ",".intercalate (typeTuple.map ValueType.getTypeName) ++ ")" := by
  cases typeTuple with
  | nil => rfl
  | cons type rest =>
    show getTypeName.loop rest 1 ("(" ++ type.getTypeName) ++ ")"
      = "(" ++ String.intercalate.go type.getTypeName ","
          (rest.map ValueType.getTypeName) ++ ")"
    rw [getTypeName_loop_eq_go rest 1 _ Nat.one_ne_zero, intercalate_go_append]

/-- C11: `getTypeName` renders every function type as an opening parenthesis,
the names of its parameters separated by single commas, then `)->` and the name
of its return type; `[i32]` with return `i32` gives `(i32)->i32` and no
parameters with return `unit` gives `()->()`. -/
theorem FunctionType_getTypeName_spec :
    (∀ functionType : FunctionType,
        functionType.getTypeName
          = FunctionType.getTypeName_spec functionType.parameters functionType.ret)
    ∧ FunctionType.getTypeName ⟨ReturnType.i32, [ValueType.i32]⟩ = "(i32)->i32"
    ∧ FunctionType.getTypeName ⟨ReturnType.unit, []⟩ = "()->()"
    ∧ FunctionType.getTypeName ⟨ReturnType.f64, [ValueType.i32, ValueType.i64, ValueType.f32]⟩
        = "(i32,i64,f32)->f64" := by
  refine ⟨?_, by decide, by decide, by decide⟩
  intro functionType
  unfold FunctionType.getTypeName FunctionType.getTypeName_spec
  rw [getTypeName_tuple_eq]
  apply String.ext
  simp only [String.data_append, List.append_assoc]
  rfl

/-- C12: the intrinsic `hello` returns its argument plus one for every signed
32-bit argument below `2^31 - 1`. -/
theorem hello_returns_succ (stdout : String) (argument : Int)
    (_hlo : I32_MIN ≤ argument) (hhi : argument < 2 ^ 31 - 1) :
    (hello stdout argument).map Prod.snd = some (argument + 1) := by
  have h : argument + 1 ≤ I32_MAX := by
    unfold I32_MAX
    omega
  unfold hello
  simp only [if_pos h, Option.map_some']

/-- C12, at the argument of the example: `hello` returns 101 for 100. -/
theorem hello_returns_succ_witness :
    I32_MIN ≤ (100 : Int) ∧ (100 : Int) < 2 ^ 31 - 1
      ∧ (hello "" 100).map Prod.snd = some 101 :=
  ⟨by decide, by decide, hello_returns_succ "" 100 (by decide) (by decide)⟩

/-- C14: `getTypeName` on an `ObjectType` gives `func ` followed by the function
type's rendering for kind `function`, `table` and `memory` for those kinds
whatever the union holds, and `global` or `immutable` directly followed by the
value type's name for kind `global`; for kind `module` and for kind `invalid`
it fails. -/
theorem ObjectType_getTypeName_spec :
    (∀ (objectType : ObjectType) (f : FunctionTypePtr),
        objectType.kind = ObjectKind.function → objectType.function = some f →
        objectType.getTypeName = some ("func " ++ f.target.getTypeName))
    ∧ (∀ objectType : ObjectType, objectType.kind = ObjectKind.table →
        objectType.getTypeName = some "table")
    ∧ (∀ objectType : ObjectType, objectType.kind = ObjectKind.memory →
        objectType.getTypeName = some "memory")
    ∧ (∀ (objectType : ObjectType) (g : GlobalType),
        objectType.kind = ObjectKind.global → objectType.global = some g →
        objectType.getTypeName
          = some ((if g.isMutable then "global" else "immutable")
              ++ g.valueType.getTypeName))
    ∧ (∀ objectType : ObjectType,
        objectType.kind = ObjectKind.module ∨ objectType.kind = ObjectKind.invalid →
        objectType.getTypeName = none) := by
  refine ⟨?_, ?_, ?_, ?_, ?_⟩
  · intro objectType f hk hf
    unfold ObjectType.getTypeName
    rw [if_pos hk, hf]
    rfl
  · intro objectType hk
    unfold ObjectType.getTypeName
    rw [hk]
    rfl
  · intro objectType hk
    unfold ObjectType.getTypeName
    rw [hk]
    rfl
  · intro objectType g hk hg
    unfold ObjectType.getTypeName
    rw [hk, hg]
    cases g with
    | mk valueType isMutable =>
      cases isMutable <;> rfl
  · intro objectType hk
    unfold ObjectType.getTypeName
    rcases hk with hk | hk <;> (rw [hk]; rfl)

/-- C14, at concrete objects: the renderings of a function object, a table
object, a memory object and two global objects, and the failure on the default
object. -/
theorem ObjectType_getTypeName_spec_witness :
    (ObjectType.ctor_function ⟨0, ⟨ReturnType.i32, [ValueType.i32]⟩⟩).getTypeName
        = some "func (i32)->i32"
    ∧ (ObjectType.ctor_table ⟨TableElementType.anyfunc, ⟨1, 2⟩⟩).getTypeName = some "table"
    ∧ (ObjectType.ctor_memory ⟨⟨3, 4⟩⟩).getTypeName = some "memory"
    ∧ (ObjectType.ctor_global ⟨ValueType.f64, true⟩).getTypeName = some "globalf64"
    ∧ (ObjectType.ctor_global ⟨ValueType.i32, false⟩).getTypeName = some "immutablei32"
    ∧ ObjectType.ctor_default.getTypeName = none :=
  ⟨ObjectType_getTypeName_spec.1
      (ObjectType.ctor_function ⟨0, ⟨ReturnType.i32, [ValueType.i32]⟩⟩)
      ⟨0, ⟨ReturnType.i32, [ValueType.i32]⟩⟩ rfl rfl,
    ObjectType_getTypeName_spec.2.1 _ rfl,
    ObjectType_getTypeName_spec.2.2.1 _ rfl,
    ObjectType_getTypeName_spec.2.2.2.1
      (ObjectType.ctor_global ⟨ValueType.f64, true⟩) ⟨ValueType.f64, true⟩ rfl rfl,
    ObjectType_getTypeName_spec.2.2.2.1
      (ObjectType.ctor_global ⟨ValueType.i32, false⟩) ⟨ValueType.i32, false⟩ rfl rfl,
    ObjectType_getTypeName_spec.2.2.2.2 _ (Or.inr rfl)⟩

/-- A request leaves the earlier table as a prefix of the new one, puts the
requested function type in the table, and returns its position there. -/
theorem FunctionType.get_table (interner : Interner) (ret : ReturnType)
    (parameters : List ValueType) :
    interner.table <+: (FunctionType.get interner ret parameters).2.table
    ∧ (⟨ret, parameters⟩ : FunctionType) ∈ (FunctionType.get interner ret parameters).2.table
    ∧ (FunctionType.get interner ret parameters).1.address
        = (FunctionType.get interner ret parameters).2.table.indexOf
            (⟨ret, parameters⟩ : FunctionType)
    ∧ (FunctionType.get interner ret parameters).1.target = ⟨ret, parameters⟩ := by
  unfold FunctionType.get
  by_cases hmem : (⟨ret, parameters⟩ : FunctionType) ∈ interner.table
  · rw [if_pos hmem]
    exact ⟨List.prefix_refl _, hmem, rfl, rfl⟩
  · rw [if_neg hmem]
    refine ⟨List.prefix_append _ _, ?_, ?_, rfl⟩
    · exact List.mem_append_right _ (List.mem_singleton_self _)
    · show interner.table.length
        = (interner.table ++ [(⟨ret, parameters⟩ : FunctionType)]).indexOf ⟨ret, parameters⟩
      rw [List.indexOf_append_of_not_mem hmem, List.indexOf_cons_self, Nat.add_zero]

/-- Requests only extend the table at its end. -/
theorem Interner.requests_prefix (requests : List (ReturnType × List ValueType))
    (interner : Interner) :
    interner.table <+: (interner.requests requests).table := by
  induction requests generalizing interner with
  | nil => exact List.prefix_refl _
  | cons request rest ih =>
    exact List.IsPrefix.trans (FunctionType.get_table interner request.1 request.2).1
      (ih (FunctionType.get interner request.1 request.2).2)

/-- The position of an entry does not change when the table is extended. -/
theorem indexOf_of_prefix {functionType : FunctionType} {earlier later : List FunctionType}
    (hmem : functionType ∈ earlier) (hpre : earlier <+: later) :
    later.indexOf functionType = earlier.indexOf functionType := by
  obtain ⟨extra, rfl⟩ := hpre
  exact List.indexOf_append_of_mem hmem

/-- Two requests with any requests between them return the same address exactly
when they ask for the same function type. -/
theorem FunctionType.get_address_eq_iff (interner : Interner)
    (between : List (ReturnType × List ValueType))
    (ret1 ret2 : ReturnType) (params1 params2 : List ValueType) :
    (FunctionType.get interner ret1 params1).1.address
        = (FunctionType.get
            ((FunctionType.get interner ret1 params1).2.requests between)
            ret2 params2).1.address
      ↔ (ret1 = ret2 ∧ params1 = params2) := by
  obtain ⟨-, hmem1, haddr1, -⟩ := FunctionType.get_table interner ret1 params1
  have hpre2 := Interner.requests_prefix between (FunctionType.get interner ret1 params1).2
  obtain ⟨hpre3, hmem2, haddr2, -⟩ := FunctionType.get_table
    ((FunctionType.get interner ret1 params1).2.requests between) ret2 params2
  have hpre := List.IsPrefix.trans hpre2 hpre3
  have hmem1' := hpre.subset hmem1
  rw [haddr1, haddr2, ← indexOf_of_prefix hmem1 hpre, List.indexOf_inj hmem1' hmem2]
  constructor
  · intro h
    exact ⟨congrArg FunctionType.ret h, congrArg FunctionType.parameters h⟩
  · rintro ⟨h1, h2⟩
    rw [h1, h2]

/-- C13: the identity that `FunctionType::get` returns is the address of the
interned function type. Whatever was requested before and whatever is requested
in between, two requests return equal addresses exactly when their return types
are equal and their parameter lists are equal; `FunctionType::get()` returns the
address of `FunctionType::get(unit, {})`, whichever of the two is requested
first; and the returned pointer refers to the requested function type. -/
theorem FunctionType_get_identity :
    (∀ (before between : List (ReturnType × List ValueType))
        (ret1 ret2 : ReturnType) (params1 params2 : List ValueType),
        (FunctionType.get (Interner.empty.requests before) ret1 params1).1.address
            = (FunctionType.get
                ((FunctionType.get (Interner.empty.requests before) ret1 params1).2.requests
                  between)
                ret2 params2).1.address
          ↔ (ret1 = ret2 ∧ params1 = params2))
    ∧ (∀ before between : List (ReturnType × List ValueType),
        (FunctionType.get_default (Interner.empty.requests before)).1.address
            = (FunctionType.get
                ((FunctionType.get_default (Interner.empty.requests before)).2.requests
                  between)
                ReturnType.unit []).1.address
          ∧ (FunctionType.get (Interner.empty.requests before) ReturnType.unit []).1.address
            = (FunctionType.get_default
                ((FunctionType.get (Interner.empty.requests before)
                  ReturnType.unit []).2.requests between)).1.address)
    ∧ (∀ (before : List (ReturnType × List ValueType)) (ret : ReturnType)
        (parameters : List ValueType),
        (FunctionType.get (Interner.empty.requests before) ret parameters).1.target
          = ⟨ret, parameters⟩) := by
  refine ⟨fun before => FunctionType.get_address_eq_iff (Interner.empty.requests before),
    ?_, ?_⟩
  · intro before between
    exact ⟨(FunctionType.get_address_eq_iff (Interner.empty.requests before) between
        ReturnType.unit ReturnType.unit [] []).mpr ⟨rfl, rfl⟩,
      (FunctionType.get_address_eq_iff (Interner.empty.requests before) between
        ReturnType.unit ReturnType.unit [] []).mpr ⟨rfl, rfl⟩⟩
  · intro before ret parameters
    exact (FunctionType.get_table (Interner.empty.requests before) ret parameters).2.2.2

/-- The loop of `getTypeName` only appends to the string it is given. -/
theorem getTypeName_loop_data (typeTuple : List ValueType) (parameterIndex : Nat)
    (result : String) :
    (getTypeName.loop typeTuple parameterIndex result).data
      = result.data ++ (getTypeName.loop typeTuple parameterIndex "").data := by
  induction typeTuple generalizing parameterIndex result with
  | nil => exact (List.append_nil _).symm
  | cons type rest ih =>
    show (getTypeName.loop rest (parameterIndex + 1)
        ((if (parameterIndex != 0) = true then result.push ',' else result)
          ++ type.getTypeName)).data
      = result.data ++ (getTypeName.loop rest (parameterIndex + 1)
        ((if (parameterIndex != 0) = true then ("" : String).push ',' else "")
          ++ type.getTypeName)).data
    rw [ih (parameterIndex + 1) ((if (parameterIndex != 0) = true then result.push ','
        else result) ++ type.getTypeName),
      ih (parameterIndex + 1) ((if (parameterIndex != 0) = true then ("" : String).push ','
        else "") ++ type.getTypeName)]
    by_cases hb : (parameterIndex != 0) = true
    · rw [if_pos hb, if_pos hb]
      simp only [String.data_append, String.data_push, List.append_assoc]
      rfl
    · rw [if_neg hb, if_neg hb]
      simp only [String.data_append, List.append_assoc]
      rfl

/-- What the loop of `getTypeName` appends for one element: a comma unless the
index is zero, then the element's name. -/
theorem getTypeName_loop_cons_data (type : ValueType) (rest : List ValueType)
    (parameterIndex : Nat) :
    (getTypeName.loop (type :: rest) parameterIndex "").data
      = (if parameterIndex = 0 then [] else [',']) ++ (type.getTypeName.data
          ++ (getTypeName.loop rest (parameterIndex + 1) "").data) := by
  show (getTypeName.loop rest (parameterIndex + 1)
      ((if (parameterIndex != 0) = true then ("" : String).push ',' else "")
        ++ type.getTypeName)).data = _
  rw [getTypeName_loop_data]
  by_cases h0 : parameterIndex = 0
  · subst h0
    rfl
  · have hb : (parameterIndex != 0) = true := by
      rw [bne_iff_ne]
      exact h0
    rw [if_pos hb, if_neg h0]
    simp only [String.data_append, String.data_push, List.append_assoc]
    rfl

/-- The characters of the name of each declared `ValueType` enumerator. -/
theorem ValueType.getTypeName_data_of_declared (type : ValueType)
    (h : type ∈ ValueType.declared) :
    type.getTypeName.data = ['i', 'n', 'v', 'a', 'l', 'i', 'd'] ∧ type = ValueType.invalid
    ∨ type.getTypeName.data = ['i', '3', '2'] ∧ type = ValueType.i32
    ∨ type.getTypeName.data = ['i', '6', '4'] ∧ type = ValueType.i64
    ∨ type.getTypeName.data = ['f', '3', '2'] ∧ type = ValueType.f32
    ∨ type.getTypeName.data = ['f', '6', '4'] ∧ type = ValueType.f64
    ∨ type.getTypeName.data = ['u', 'n', 'k', 'n', 'o', 'w', 'n'] ∧ type = ValueType.num := by
  unfold ValueType.declared at h
  simp only [List.mem_cons, List.mem_singleton, List.not_mem_nil, or_false] at h
  rcases h with h | h | h | h | h | h | h <;> subst h <;> decide

/-- No name of a declared `ValueType` enumerator is a prefix of another: a
string that starts with one of the names starts with no other. -/
theorem ValueType.getTypeName_prefix_free (type1 type2 : ValueType)
    (h1 : type1 ∈ ValueType.declared) (h2 : type2 ∈ ValueType.declared)
    (x y : List Char)
    (h : type1.getTypeName.data ++ x = type2.getTypeName.data ++ y) : type1 = type2 := by
  rcases ValueType.getTypeName_data_of_declared type1 h1 with
    ⟨e1, r1⟩ | ⟨e1, r1⟩ | ⟨e1, r1⟩ | ⟨e1, r1⟩ | ⟨e1, r1⟩ | ⟨e1, r1⟩ <;>
  rcases ValueType.getTypeName_data_of_declared type2 h2 with
    ⟨e2, r2⟩ | ⟨e2, r2⟩ | ⟨e2, r2⟩ | ⟨e2, r2⟩ | ⟨e2, r2⟩ | ⟨e2, r2⟩ <;>
  rw [e1, e2] at h <;> rw [r1, r2] <;>
  first
  | rfl
  | (exfalso; simp at h)

/-- The name of a declared `ValueType` enumerator does not start with a closing
parenthesis. -/
theorem ValueType.getTypeName_ne_paren (type : ValueType)
    (h1 : type ∈ ValueType.declared) (x y : List Char) :
    type.getTypeName.data ++ x ≠ ')' :: y := by
  intro h
  rcases ValueType.getTypeName_data_of_declared type h1 with
    ⟨e1, -⟩ | ⟨e1, -⟩ | ⟨e1, -⟩ | ⟨e1, -⟩ | ⟨e1, -⟩ | ⟨e1, -⟩ <;>
  rw [e1] at h <;> simp at h

/-- The characters that the loop of `getTypeName` produces, followed by a
closing parenthesis, determine the elements and what follows the
parenthesis. -/
theorem getTypeName_loop_injective (tuple1 : List ValueType) :
    ∀ (tuple2 : List ValueType) (parameterIndex : Nat) (x y : List Char),
      (∀ p ∈ tuple1, p ∈ ValueType.declared) → (∀ p ∈ tuple2, p ∈ ValueType.declared) →
      (getTypeName.loop tuple1 parameterIndex "").data ++ ')' :: x
        = (getTypeName.loop tuple2 parameterIndex "").data ++ ')' :: y →
      tuple1 = tuple2 ∧ x = y := by
  induction tuple1 with
  | nil =>
    intro tuple2 parameterIndex x y _ hd2 h
    cases tuple2 with
    | nil =>
      have h' : ')' :: x = ')' :: y := h
      exact ⟨rfl, (List.cons.inj h').2⟩
    | cons type2 rest2 =>
      exfalso
      rw [getTypeName_loop_cons_data] at h
      have h' : ')' :: x = (if parameterIndex = 0 then [] else [','])
          ++ (type2.getTypeName.data
            ++ (getTypeName.loop rest2 (parameterIndex + 1) "").data) ++ ')' :: y := h
      by_cases h0 : parameterIndex = 0
      · rw [if_pos h0, List.nil_append, List.append_assoc] at h'
        exact ValueType.getTypeName_ne_paren type2 (hd2 type2 (List.mem_cons_self _ _))
          _ _ h'.symm
      · rw [if_neg h0] at h'
        simp at h'
  | cons type1 rest1 ih =>
    intro tuple2 parameterIndex x y hd1 hd2 h
    cases tuple2 with
    | nil =>
      exfalso
      rw [getTypeName_loop_cons_data] at h
      have h' : (if parameterIndex = 0 then [] else [','])
          ++ (type1.getTypeName.data
            ++ (getTypeName.loop rest1 (parameterIndex + 1) "").data) ++ ')' :: x
          = ')' :: y := h
      by_cases h0 : parameterIndex = 0
      · rw [if_pos h0, List.nil_append, List.append_assoc] at h'
        exact ValueType.getTypeName_ne_paren type1 (hd1 type1 (List.mem_cons_self _ _))
          _ _ h'
      · rw [if_neg h0] at h'
        simp at h'
    | cons type2 rest2 =>
      rw [getTypeName_loop_cons_data, getTypeName_loop_cons_data, List.append_assoc,
        List.append_assoc, List.append_assoc, List.append_assoc] at h
      have h' := List.append_cancel_left h
      have htype : type1 = type2 :=
        ValueType.getTypeName_prefix_free type1 type2
          (hd1 type1 (List.mem_cons_self _ _)) (hd2 type2 (List.mem_cons_self _ _)) _ _ h'
      subst htype
      have h'' := List.append_cancel_left h'
      obtain ⟨hrest, hxy⟩ := ih rest2 (parameterIndex + 1) x y
        (fun p hp => hd1 p (List.mem_cons_of_mem _ hp))
        (fun p hp => hd2 p (List.mem_cons_of_mem _ hp)) h''
      exact ⟨by rw [hrest], hxy⟩

/-- The names of the declared `ReturnType` enumerators other than `num` are
pairwise different. -/
theorem ReturnType.getTypeName_injective (type1 type2 : ReturnType)
    (h1 : type1 ∈ ReturnType.declared) (h2 : type2 ∈ ReturnType.declared)
    (n1 : type1 ≠ ReturnType.num) (n2 : type2 ≠ ReturnType.num)
    (h : type1.getTypeName = type2.getTypeName) : type1 = type2 := by
  unfold ReturnType.declared at h1 h2
  simp only [List.mem_cons, List.mem_singleton, List.not_mem_nil, or_false] at h1 h2
  rcases h1 with h1 | h1 | h1 | h1 | h1 | h1 | h1 | h1 <;>
  rcases h2 with h2 | h2 | h2 | h2 | h2 | h2 | h2 | h2 <;>
  subst h1 <;> subst h2 <;>
  first
  | rfl
  | exact absurd rfl n1
  | exact absurd rfl n2
  | exact absurd h (by decide)

/-- The characters of a function type's rendering. -/
theorem FunctionType.getTypeName_data (functionType : FunctionType) :
    functionType.getTypeName.data
      = '(' :: ((getTypeName.loop functionType.parameters 0 "").data
          ++ ')' :: ('-' :: '>' :: functionType.ret.getTypeName.data)) := by
  unfold FunctionType.getTypeName WebAssembly.getTypeName
  simp only [String.data_append, getTypeName_loop_data functionType.parameters 0 "(",
    List.append_assoc]
  rfl

/-- C18, as stated, fails: `ReturnType::invalid` and `ReturnType::num` are both
declared enumerators and both are named `unknown`, so two function types that
differ in their return type have the same rendering. -/
theorem FunctionType_getTypeName_collision :
    (∀ p ∈ [ValueType.i32], p ∈ ValueType.declared)
    ∧ ReturnType.invalid ∈ ReturnType.declared
    ∧ ReturnType.num ∈ ReturnType.declared
    ∧ FunctionType.getTypeName ⟨ReturnType.invalid, [ValueType.i32]⟩
        = FunctionType.getTypeName ⟨ReturnType.num, [ValueType.i32]⟩
    ∧ ReturnType.invalid ≠ ReturnType.num := by
  decide

/-- C18, amended: over function types whose parameter types are declared
`ValueType` enumerators and whose return type is a declared `ReturnType`
enumerator other than `num`, equal renderings imply equal parameter sequences
and equal return types. -/
theorem FunctionType_getTypeName_injective (functionType1 functionType2 : FunctionType)
    (hp1 : ∀ p ∈ functionType1.parameters, p ∈ ValueType.declared)
    (hp2 : ∀ p ∈ functionType2.parameters, p ∈ ValueType.declared)
    (hr1 : functionType1.ret ∈ ReturnType.declared)
    (hr2 : functionType2.ret ∈ ReturnType.declared)
    (hn1 : functionType1.ret ≠ ReturnType.num)
    (hn2 : functionType2.ret ≠ ReturnType.num)
    (h : functionType1.getTypeName = functionType2.getTypeName) :
    functionType1.parameters = functionType2.parameters
      ∧ functionType1.ret = functionType2.ret := by
  have hdata := congrArg String.data h
  rw [FunctionType.getTypeName_data, FunctionType.getTypeName_data] at hdata
  obtain ⟨hparams, htail⟩ := getTypeName_loop_injective functionType1.parameters
    functionType2.parameters 0 _ _ hp1 hp2 (List.cons.inj hdata).2
  refine ⟨hparams, ?_⟩
  have hname : functionType1.ret.getTypeName.data = functionType2.ret.getTypeName.data :=
    (List.cons.inj (List.cons.inj htail).2).2
  exact ReturnType.getTypeName_injective _ _ hr1 hr2 hn1 hn2 (String.ext hname)

/-- C18, amended, at concrete function types: the function types written with
the enumerators `max` and with `f64` and `unit` both render as `(f64)->()`, and
they are the same function type. -/
theorem FunctionType_getTypeName_injective_witness :
    FunctionType.getTypeName ⟨ReturnType.max, [ValueType.max]⟩ = "(f64)->()"
      ∧ ([ValueType.max] = [ValueType.f64] ∧ ReturnType.max = ReturnType.unit) :=
  ⟨by decide,
    FunctionType_getTypeName_injective
      ⟨ReturnType.max, [ValueType.max]⟩ ⟨ReturnType.unit, [ValueType.f64]⟩
      (by decide) (by decide) (by decide) (by decide) (by decide) (by decide) (by decide)⟩

end WebAssembly
